import Mathlib

/-!
Verification of the resource-lifetime and GPU-synchronisation core of the
learn-vulkan engine, shallowly embedded in Lean.  Native Vulkan handles and
bit masks are modelled as natural numbers, 64-bit machine integers as `Nat`
with an explicit `% 2 ^ 64` wherever the width matters, and every relevant
API side effect as an explicit event value so that the order of calls is a
plain list.
-/

namespace LearnVulkan

/-! Section: FixedArray (src/App/Common/FixedArray.hpp)

A compile-time bounded array behaving like a dynamic array.  `data` models
the live prefix of the backing `std::array` (its length is the `Size`
member); the class invariant `Size <= N` is carried as a proof field.  The
debug assertion `assert(this->Size < N)` in `pushBack` is the eager
capacity check; an assertion failure is modelled as `none`. -/

structure FixedArray (N : Nat) (α : Type) where
  data : List α
  size_le : data.length ≤ N

def FixedArray.size {N : Nat} {α : Type} (a : FixedArray N α) : Nat :=
  a.data.length

def FixedArray.emptyArray (N : Nat) (α : Type) : FixedArray N α :=
  ⟨[], by simp⟩

def FixedArray.pushBack {N : Nat} {α : Type} (a : FixedArray N α) (x : α) :
    Option (FixedArray N α) :=
  if h : a.data.length < N then
    some ⟨a.data ++ [x], by simp only [List.length_append, List.length_singleton]; omega⟩
  else
    none

def FixedArray.clear {N : Nat} {α : Type} (_ : FixedArray N α) : FixedArray N α :=
  ⟨[], by simp⟩

/-! Section: Pipeline barrier batch (src/App/Engine/Abstraction/PipelineBarrier.hpp)

The three barrier info structures mirror `PipelineBarrierInfo`, and the
`Vk*Barrier2` structures mirror the fields `add*Barrier` fills in (the
constant `sType` tags are omitted).  Stage masks, access masks, layouts and
handles are modelled as `Nat`. -/

structure BarrierInfo where
  SourceStage : Nat
  SourceAccess : Nat
  TargetStage : Nat
  TargetAccess : Nat
deriving DecidableEq

structure ImageLayoutTransitionInfo where
  OldLayout : Nat
  NewLayout : Nat
deriving DecidableEq

/-- VK_QUEUE_FAMILY_IGNORED is `~0u` over 32 bits. -/
def VK_QUEUE_FAMILY_IGNORED : Nat := 2 ^ 32 - 1

/-- VK_WHOLE_SIZE is `~0ull` over 64 bits. -/
def VK_WHOLE_SIZE : Nat := 2 ^ 64 - 1

structure QueueFamilyTransitionInfo where
  Source : Nat := VK_QUEUE_FAMILY_IGNORED
  Target : Nat := VK_QUEUE_FAMILY_IGNORED
deriving DecidableEq

structure VkMemoryBarrier2 where
  srcStageMask : Nat
  srcAccessMask : Nat
  dstStageMask : Nat
  dstAccessMask : Nat
deriving DecidableEq

structure VkBufferMemoryBarrier2 where
  srcStageMask : Nat
  srcAccessMask : Nat
  dstStageMask : Nat
  dstAccessMask : Nat
  srcQueueFamilyIndex : Nat
  dstQueueFamilyIndex : Nat
  buffer : Nat
  offset : Nat
  size : Nat
deriving DecidableEq

structure VkImageSubresourceRange where
  aspectMask : Nat
  baseMipLevel : Nat
  levelCount : Nat
  baseArrayLayer : Nat
  layerCount : Nat
deriving DecidableEq

structure VkImageMemoryBarrier2 where
  srcStageMask : Nat
  srcAccessMask : Nat
  dstStageMask : Nat
  dstAccessMask : Nat
  oldLayout : Nat
  newLayout : Nat
  srcQueueFamilyIndex : Nat
  dstQueueFamilyIndex : Nat
  image : Nat
  subresourceRange : VkImageSubresourceRange
deriving DecidableEq

structure PipelineBarrier (NMemBar NBufBar NImgBar : Nat) where
  MemoryBarrier : FixedArray NMemBar VkMemoryBarrier2
  BufferBarrier : FixedArray NBufBar VkBufferMemoryBarrier2
  ImageBarrier : FixedArray NImgBar VkImageMemoryBarrier2

def PipelineBarrier.emptyBatch (NMemBar NBufBar NImgBar : Nat) :
    PipelineBarrier NMemBar NBufBar NImgBar :=
  ⟨FixedArray.emptyArray _ _, FixedArray.emptyArray _ _, FixedArray.emptyArray _ _⟩

def PipelineBarrier.addMemoryBarrier {NMemBar NBufBar NImgBar : Nat}
    (pb : PipelineBarrier NMemBar NBufBar NImgBar) (barrier : BarrierInfo) :
    Option (PipelineBarrier NMemBar NBufBar NImgBar) :=
  (pb.MemoryBarrier.pushBack
    { srcStageMask := barrier.SourceStage
      srcAccessMask := barrier.SourceAccess
      dstStageMask := barrier.TargetStage
      dstAccessMask := barrier.TargetAccess }).map
    fun m => { pb with MemoryBarrier := m }

def PipelineBarrier.addBufferBarrier {NMemBar NBufBar NImgBar : Nat}
    (pb : PipelineBarrier NMemBar NBufBar NImgBar) (barrier : BarrierInfo)
    (queue_family : QueueFamilyTransitionInfo) (buffer offset size : Nat) :
    Option (PipelineBarrier NMemBar NBufBar NImgBar) :=
  (pb.BufferBarrier.pushBack
    { srcStageMask := barrier.SourceStage
      srcAccessMask := barrier.SourceAccess
      dstStageMask := barrier.TargetStage
      dstAccessMask := barrier.TargetAccess
      srcQueueFamilyIndex := queue_family.Source
      dstQueueFamilyIndex := queue_family.Target
      buffer := buffer
      offset := offset
      size := size }).map
    fun m => { pb with BufferBarrier := m }

/-- The convenience overload of `addBufferBarrier`: no queue family
transition, whole buffer, zero offset. -/
def PipelineBarrier.addBufferBarrier' {NMemBar NBufBar NImgBar : Nat}
    (pb : PipelineBarrier NMemBar NBufBar NImgBar) (barrier : BarrierInfo)
    (buffer : Nat) : Option (PipelineBarrier NMemBar NBufBar NImgBar) :=
  pb.addBufferBarrier barrier {} buffer 0 VK_WHOLE_SIZE

def PipelineBarrier.addImageBarrier {NMemBar NBufBar NImgBar : Nat}
    (pb : PipelineBarrier NMemBar NBufBar NImgBar) (barrier : BarrierInfo)
    (layout : ImageLayoutTransitionInfo) (queue_family : QueueFamilyTransitionInfo)
    (image : Nat) (sub_res_range : VkImageSubresourceRange) :
    Option (PipelineBarrier NMemBar NBufBar NImgBar) :=
  (pb.ImageBarrier.pushBack
    { srcStageMask := barrier.SourceStage
      srcAccessMask := barrier.SourceAccess
      dstStageMask := barrier.TargetStage
      dstAccessMask := barrier.TargetAccess
      oldLayout := layout.OldLayout
      newLayout := layout.NewLayout
      srcQueueFamilyIndex := queue_family.Source
      dstQueueFamilyIndex := queue_family.Target
      image := image
      subresourceRange := sub_res_range }).map
    fun m => { pb with ImageBarrier := m }

structure VkDependencyInfo where
  dependencyFlags : Nat
  memoryBarriers : List VkMemoryBarrier2
  bufferMemoryBarriers : List VkBufferMemoryBarrier2
  imageMemoryBarriers : List VkImageMemoryBarrier2
deriving DecidableEq

inductive GpuCommand where
  | cmdPipelineBarrier2 (dep : VkDependencyInfo)
deriving DecidableEq

/-- Record (`PipelineBarrier::record`): builds one `VkDependencyInfo` covering all
accumulated entries and issues exactly one `vkCmdPipelineBarrier2` call.
The member function is `const`; the unchanged batch is returned alongside
the emitted command list. -/
def PipelineBarrier.record {NMemBar NBufBar NImgBar : Nat}
    (pb : PipelineBarrier NMemBar NBufBar NImgBar) (dep_flag : Nat) :
    List GpuCommand × PipelineBarrier NMemBar NBufBar NImgBar :=
  ([GpuCommand.cmdPipelineBarrier2
    { dependencyFlags := dep_flag
      memoryBarriers := pb.MemoryBarrier.data
      bufferMemoryBarriers := pb.BufferBarrier.data
      imageMemoryBarriers := pb.ImageBarrier.data }], pb)

def PipelineBarrier.clear {NMemBar NBufBar NImgBar : Nat}
    (pb : PipelineBarrier NMemBar NBufBar NImgBar) :
    PipelineBarrier NMemBar NBufBar NImgBar :=
  ⟨pb.MemoryBarrier.clear, pb.BufferBarrier.clear, pb.ImageBarrier.clear⟩

/-! Section: Owned handle (src/App/Common/VulkanObject.hpp, `_Internal::UniqueHandle`)

A `UniqueHandle` wraps `std::unique_ptr<THandle, TDeleter>`: an optional
native handle plus the captured deleter (destruction context).  `destroy`
returns the list of native free calls the destructor performs: the
`unique_ptr` destructor invokes the deleter exactly when the stored pointer
is non-null. -/

structure FreeCall (H D : Type) where
  deleter : D
  handle : H
deriving DecidableEq

structure UniqueHandle (H D : Type) where
  handle : Option H
  deleter : D
deriving DecidableEq

/-- Construction (`UniqueHandle(const THandle handle, TDeleter&& deleter)`):
construction
takes ownership of the native handle immediately. -/
def UniqueHandle.ofHandle {H D : Type} (h : H) (d : D) : UniqueHandle H D :=
  ⟨some h, d⟩

/-- Default construction: no managed handle (null pointer, given deleter
state standing for the default-constructed deleter). -/
def UniqueHandle.emptyHandle {H D : Type} (d : D) : UniqueHandle H D :=
  ⟨none, d⟩

/-- Destruction: the deleter is called exactly once on a non-null stored
handle, and not at all on a null one. -/
def UniqueHandle.destroy {H D : Type} (u : UniqueHandle H D) : List (FreeCall H D) :=
  match u.handle with
  | none => []
  | some h => [⟨u.deleter, h⟩]

/-- Move construction (`UniqueHandle(UniqueHandle&&) noexcept = default`):
returns the pair (moved-from source, move-constructed target).  The target
steals the stored pointer and deleter; the source's stored pointer becomes
null. -/
def UniqueHandle.moveConstruct {H D : Type} (u : UniqueHandle H D) :
    UniqueHandle H D × UniqueHandle H D :=
  ({ u with handle := none }, u)

/-- Move assignment (`operator=(UniqueHandle&&) noexcept = default`):
`dst = move(src)` first frees `dst`'s current handle (if any), then steals
`src`'s pointer and deleter.  Returns (free calls performed, new dst,
new src). -/
def UniqueHandle.moveAssign {H D : Type} (dst src : UniqueHandle H D) :
    List (FreeCall H D) × UniqueHandle H D × UniqueHandle H D :=
  (dst.destroy, src, { src with handle := none })

/-! Section: Command submission (src/App/Engine/Abstraction/CommandBufferManager.cpp)

`CommandBufferManager::_Internal::submit` fills the pre-allocated
`VkCommandBufferSubmitInfo` / `VkSemaphoreSubmitInfo` arrays from the
caller's spans, builds one `VkSubmitInfo2`, resets the fence if one was
supplied (`VK_NULL_HANDLE` is 0), and issues one `vkQueueSubmit2` call. -/

structure SemaphoreOperation where
  Semaphore : Nat
  Stage : Nat
  Value : Nat
deriving DecidableEq

structure VkCommandBufferSubmitInfo where
  commandBuffer : Nat
deriving DecidableEq

structure VkSemaphoreSubmitInfo where
  semaphore : Nat
  value : Nat
  stageMask : Nat
deriving DecidableEq

def fillCommandBufferSubmitInfo (cmd : List Nat) : List VkCommandBufferSubmitInfo :=
  cmd.map fun c => { commandBuffer := c }

/-- The same transformation serves both the wait and the signal spans. -/
def fillSemaphoreSubmitInfo (ops : List SemaphoreOperation) : List VkSemaphoreSubmitInfo :=
  ops.map fun op => { semaphore := op.Semaphore, value := op.Value, stageMask := op.Stage }

structure VkSubmitInfo2 where
  waitSemaphoreInfos : List VkSemaphoreSubmitInfo
  commandBufferInfos : List VkCommandBufferSubmitInfo
  signalSemaphoreInfos : List VkSemaphoreSubmitInfo
deriving DecidableEq

inductive SubmitEvent where
  | resetFences (fence : Nat)
  | queueSubmit2 (info : VkSubmitInfo2) (fence : Nat)
deriving DecidableEq

def SubmitEvent.isQueueSubmit2 : SubmitEvent → Bool
  | .queueSubmit2 _ _ => true
  | _ => false

def SubmitEvent.isResetFences : SubmitEvent → Bool
  | .resetFences _ => true
  | _ => false

def submit (cmd : List Nat) (wait_op signal_op : List SemaphoreOperation)
    (fence : Nat) : List SubmitEvent :=
  let queue_submit_info : VkSubmitInfo2 :=
    { waitSemaphoreInfos := fillSemaphoreSubmitInfo wait_op
      commandBufferInfos := fillCommandBufferSubmitInfo cmd
      signalSemaphoreInfos := fillSemaphoreSubmitInfo signal_op }
  (if fence ≠ 0 then [SubmitEvent.resetFences fence] else [])
    ++ [SubmitEvent.queueSubmit2 queue_submit_info fence]

/-! Section: Error handling (src/App/Common/ErrorHandler.hpp, src/Common/ErrorHandler.cpp)

`checkVulkanError` raises (as `Except.error`) exactly when the result code
differs from `VK_SUCCESS` (= 0).  The message built by `throwError` is the
textual result-code name followed by the call-site source location; the
textual name comes from the external helper `string_VkResult`, modelled as
an abstract function parameter. -/

structure SourceLocation where
  fileName : String
  functionName : String
  line : Nat
deriving DecidableEq

def throwErrorMessage (prefix_info : String) (src : SourceLocation) : String :=
  prefix_info ++ "\n" ++ src.fileName ++ ":" ++ src.functionName ++ ":("
    ++ toString src.line ++ ")" ++ "\n"

def checkVulkanError (string_VkResult : Int → String) (code : Int)
    (src : SourceLocation) : Except String Unit :=
  if code ≠ 0 then
    Except.error (throwErrorMessage (string_VkResult code) src)
  else
    Except.ok ()

/-! Section: Descriptor buffer manager (src/App/Engine/Abstraction/DescriptorBufferManager.cpp)

Construction queries each descriptor-set layout's byte size, rounds every
size except the last up to the device alignment with the 64-bit bit trick
`(num + mul - 1u) & ~(mul - 1u)` (the alignment must be a power of two,
asserted in debug builds), sums the rounded sizes with `std::reduce` into
the total buffer size, and converts sizes to offsets with
`std::exclusive_scan` starting from 0.  All arithmetic is on
`VkDeviceSize`, i.e. 64-bit unsigned. -/

/-- Over 64 bits, `~(mul - 1u)` equals `2 ^ 64 - mul` for `1 ≤ mul ≤ 2 ^ 64`. -/
def roundUp (num mul : Nat) : Nat :=
  Nat.land ((num + mul - 1) % 2 ^ 64) (2 ^ 64 - mul)

/-- The `for_each` over `offset_span | take(size - 1)`: every size except
the last is rounded up to the alignment. -/
def roundSizes (alignment : Nat) : List Nat → List Nat
  | [] => []
  | [s] => [s]
  | s :: s' :: rest => roundUp s alignment :: roundSizes alignment (s' :: rest)

/-- Model of `std::reduce` over `VkDeviceSize` with initial value 0; each 64-bit
addition wraps. -/
def totalSize (alignment : Nat) (sizes : List Nat) : Nat :=
  (roundSizes alignment sizes).foldl (fun a b => (a + b) % 2 ^ 64) 0

/-- Model of `std::exclusive_scan` with initial value 0 over `VkDeviceSize`. -/
def exclusiveScan (acc : Nat) : List Nat → List Nat
  | [] => []
  | s :: rest => acc :: exclusiveScan ((acc + s) % 2 ^ 64) rest

def descriptorSetOffsets (alignment : Nat) (sizes : List Nat) : List Nat :=
  exclusiveScan 0 (roundSizes alignment sizes)

/-- The three parallel `std::vector`s of the manager's pending-flush list. -/
structure FlushData where
  Allocation : List Nat
  Offset : List Nat
  Size : List Nat
deriving DecidableEq

structure DescriptorBufferManager where
  /-- The `VmaAllocation` of the backing buffer (`DescriptorBuffer.first`). -/
  DescriptorBufferAllocation : Nat
  /-- The precomputed per-set offsets (the `Offset` static array). -/
  Offset : List Nat
  UpdaterAlive : Bool
  Flush : FlushData
deriving DecidableEq

/-- The second constructor, with the device-reported layout sizes already
queried: precomputes the offsets and starts with `UpdaterAlive = false` and
empty flush vectors. -/
def mkDescriptorBufferManager (allocation alignment : Nat) (sizes : List Nat) :
    DescriptorBufferManager :=
  { DescriptorBufferAllocation := allocation
    Offset := descriptorSetOffsets alignment sizes
    UpdaterAlive := false
    Flush := ⟨[], [], []⟩ }

/-- Mirrors `DescriptorBufferManager::clearFlush`. -/
def clearFlush (dbm : DescriptorBufferManager) : DescriptorBufferManager :=
  { dbm with Flush := ⟨[], [], []⟩ }

inductive CreateUpdaterResult where
  | ok
  | busyError
deriving DecidableEq

/-- Constructor `DescriptorUpdater::DescriptorUpdater`: throws while the manager is
untouched if another updater is alive; otherwise clears the flush list and
marks the manager busy.  (The persistent mapping of the backing allocation
happens only after these steps and does not alter the manager state.) -/
def createUpdater (dbm : DescriptorBufferManager) :
    CreateUpdaterResult × DescriptorBufferManager :=
  if dbm.UpdaterAlive then
    (CreateUpdaterResult.busyError, dbm)
  else
    (CreateUpdaterResult.ok, { clearFlush dbm with UpdaterAlive := true })

/-- The members of `DescriptorUpdater::UpdateInfo` that feed the offset
computation, with the two device queries supplied as values:
`BindingOffset` is what `vkGetDescriptorSetLayoutBindingOffsetEXT` reports
for (SetLayout, Binding), and `DescriptorSize` is `getDataSize` of the
descriptor type. -/
structure UpdateInfo where
  SetIndex : Nat
  Binding : Nat
  ArrayLayer : Nat
  BindingOffset : Nat
  DescriptorSize : Nat
deriving DecidableEq

/-- Member `DescriptorUpdater::update`: asserts the updater is alive (modelled as
`none`), computes `set_offset + binding_offset + layer * data_size`, writes
the descriptor payload at that offset of the mapped pointer (a memory
effect outside the manager state), and appends one (allocation, offset,
size) triple to the flush list. -/
def update (dbm : DescriptorBufferManager) (info : UpdateInfo) :
    Option DescriptorBufferManager :=
  if dbm.UpdaterAlive then
    let set_offset := dbm.Offset.getD info.SetIndex 0
    let update_offset :=
      (set_offset + info.BindingOffset + info.ArrayLayer * info.DescriptorSize) % 2 ^ 64
    some { dbm with Flush :=
      ⟨dbm.Flush.Allocation ++ [dbm.DescriptorBufferAllocation],
       dbm.Flush.Offset ++ [update_offset],
       dbm.Flush.Size ++ [info.DescriptorSize]⟩ }
  else
    none

/-- The single `vmaFlushAllocations` call made by the flusher: the range
count is `allocation.size()` and the three data pointers are the parallel
vectors. -/
structure FlushSubmission where
  UpdateCount : Nat
  Allocations : List Nat
  Offsets : List Nat
  Sizes : List Nat
deriving DecidableEq

/-- Flusher `DescriptorUpdater::DescriptorFlusher::operator()` (run at updater
destruction): performs the batched flush of all recorded ranges, then
marks the manager as no longer busy.  The flush vectors themselves are not
cleared here; the next `createUpdater` clears them. -/
def descriptorFlusher (dbm : DescriptorBufferManager) :
    FlushSubmission × DescriptorBufferManager :=
  ({ UpdateCount := dbm.Flush.Allocation.length
     Allocations := dbm.Flush.Allocation
     Offsets := dbm.Flush.Offset
     Sizes := dbm.Flush.Size },
   { dbm with UpdaterAlive := false })

/-! Section: Frame-in-flight pacer (src/App/Engine/MasterEngine.cpp)

`createSyncPrimitive` creates the slot's timeline semaphore with initial
value 0, and the engine constructor initialises each slot's `FrameCounter`
to 0.  For the slot `MasterEngine::draw` lands on, the timeline-relevant
steps are, in order: a host wait on the slot's timeline semaphore for the
value `frame_counter++` reads (the value the slot last signalled), the
`vkResetCommandPool` on the slot's command pool, and the queue submission
that signals the timeline semaphore to the incremented counter.  The
commands recorded in between (camera update, image acquisition, renderer
draw, present) touch no timeline state and are elided as events. -/

def MaxFrameInFlight : Nat := 2

inductive DrawEvent where
  | hostWaitTimeline (semaphore value : Nat)
  | resetCommandPool (slot : Nat)
  | submitSignalTimeline (semaphore value : Nat)
deriving DecidableEq

/-- One `MasterEngine::draw` call, projected to the slot it runs on:
consumes the slot's `FrameCounter` (a `uint64_t`) and returns the emitted
event list together with the new counter. -/
def drawSlot (slot semaphore frame_counter : Nat) : List DrawEvent × Nat :=
  let waited := frame_counter
  let counter := (frame_counter + 1) % 2 ^ 64
  ([DrawEvent.hostWaitTimeline semaphore waited,
    DrawEvent.resetCommandPool slot,
    DrawEvent.submitSignalTimeline semaphore counter], counter)

/-- The slot's `FrameCounter` after its first `n` draw calls
(`FrameCounter` starts at 0). -/
def frameCounterAfter (slot semaphore : Nat) : Nat → Nat
  | 0 => 0
  | n + 1 => (drawSlot slot semaphore (frameCounterAfter slot semaphore n)).snd

/-- The events of the slot's `n`-th draw call (0-based). -/
def drawEvents (slot semaphore n : Nat) : List DrawEvent :=
  (drawSlot slot semaphore (frameCounterAfter slot semaphore n)).fst

/-- The timeline value the slot last signalled before its `n`-th draw; the
timeline semaphore itself was created with initial value 0. -/
def lastSignaledValue (slot semaphore n : Nat) : Nat :=
  frameCounterAfter slot semaphore n

/-! Section: Acceleration-structure compaction (src/Engine/Abstraction/AccelStructManager.cpp)

`compactAccelStruct` reads the compacted size back from the query pool with
`VK_QUERY_RESULT_WAIT_BIT` (so the call blocks until the result is
available), creates the new backing buffer and the new structure with
exactly that size, and finally records the compacting copy from the old
structure into the new one. -/

inductive CompactionHandle where
  | sourceAccelStruct
  | compactedBuffer
  | compactedAccelStruct
deriving DecidableEq

inductive CompactionEvent where
  | getQueryPoolResults (queryPool queryIndex flags : Nat)
  | createDeviceBuffer (buffer : CompactionHandle) (size : Nat)
  | createAccelerationStructureKHR (accelStruct buffer : CompactionHandle) (size : Nat)
  | cmdCopyAccelerationStructureKHR (src dst : CompactionHandle) (compactMode : Bool)
deriving DecidableEq

def VK_QUERY_RESULT_WAIT_BIT : Nat := 2

/-- Model of `AccelStructManager::compactAccelStruct`, with the size the device
reports for the query supplied as `queried_size`. -/
def compactAccelStruct (query_pool query_idx queried_size : Nat) :
    List CompactionEvent :=
  [CompactionEvent.getQueryPoolResults query_pool query_idx VK_QUERY_RESULT_WAIT_BIT,
   CompactionEvent.createDeviceBuffer CompactionHandle.compactedBuffer queried_size,
   CompactionEvent.createAccelerationStructureKHR CompactionHandle.compactedAccelStruct
     CompactionHandle.compactedBuffer queried_size,
   CompactionEvent.cmdCopyAccelerationStructureKHR CompactionHandle.sourceAccelStruct
     CompactionHandle.compactedAccelStruct true]

/-- Which handle an event writes to or creates; the host query readback
writes only host memory. -/
def CompactionEvent.modifies (e : CompactionEvent) (h : CompactionHandle) : Bool :=
  match e with
  | .getQueryPoolResults _ _ _ => false
  | .createDeviceBuffer b _ => b == h
  | .createAccelerationStructureKHR a _ _ => a == h
  | .cmdCopyAccelerationStructureKHR _ dst _ => dst == h

/-! Section: Theorems -/

/-- Helper: `FixedArray::pushBack` fails (assertion) exactly when the live size has
reached the declared capacity. -/
theorem FixedArray.pushBack_eq_none_iff {N : Nat} {α : Type}
    (a : FixedArray N α) (x : α) : a.pushBack x = none ↔ a.size = N := by
  have hle := a.size_le
  unfold FixedArray.pushBack FixedArray.size
  split
  · rename_i hlt
    simp only [reduceCtorEq, false_iff]
    omega
  · rename_i hge
    simp only [true_iff]
    omega

/-- C1: for every draw on an in-flight slot, the host wait on the slot's
timeline semaphore targets exactly the value the slot last signalled and
appears strictly before the slot's command-pool reset; the subsequent
submission signals the timeline to the waited value plus one.  Since the
timeline starts at 0 and the slot's `n`-th draw (0-based) signals `n + 1`,
the per-slot signalled values are the strictly increasing sequence
1, 2, 3, ... -/
theorem framePacer_waits_before_reset_and_signals_increasing
    (slot semaphore n : Nat) (hn : n + 1 < 2 ^ 64) :
    lastSignaledValue slot semaphore n = n
    ∧ drawEvents slot semaphore n =
      [DrawEvent.hostWaitTimeline semaphore (lastSignaledValue slot semaphore n),
       DrawEvent.resetCommandPool slot,
       DrawEvent.submitSignalTimeline semaphore (n + 1)] := by
  have key : ∀ m : Nat, frameCounterAfter slot semaphore m = m % 2 ^ 64 := by
    intro m
    induction m with
    | zero => rfl
    | succ k ih =>
      show (drawSlot slot semaphore (frameCounterAfter slot semaphore k)).snd = _
      rw [ih]
      show (k % 2 ^ 64 + 1) % 2 ^ 64 = (k + 1) % 2 ^ 64
      omega
  have hc : frameCounterAfter slot semaphore n = n := by
    rw [key n]; omega
  refine ⟨?_, ?_⟩
  · show frameCounterAfter slot semaphore n = n
    exact hc
  · show (drawSlot slot semaphore (frameCounterAfter slot semaphore n)).fst = _
    rw [hc]
    show [DrawEvent.hostWaitTimeline semaphore n, DrawEvent.resetCommandPool slot,
      DrawEvent.submitSignalTimeline semaphore ((n + 1) % 2 ^ 64)] = _
    rw [Nat.mod_eq_of_lt hn]
    unfold lastSignaledValue
    rw [hc]

/-- A concrete run of C1: the sixth draw on a slot waits on value 5, then
resets the pool, then signals 6. -/
theorem framePacer_waits_before_reset_and_signals_increasing_witness :
    5 + 1 < 2 ^ 64
    ∧ (lastSignaledValue 0 7 5 = 5
      ∧ drawEvents 0 7 5 =
        [DrawEvent.hostWaitTimeline 7 (lastSignaledValue 0 7 5),
         DrawEvent.resetCommandPool 0,
         DrawEvent.submitSignalTimeline 7 (5 + 1)]) :=
  ⟨by decide, framePacer_waits_before_reset_and_signals_increasing 0 7 5 (by decide)⟩

/-- C2: the call `createUpdater` raises exactly when another updater for the same
manager is alive; the failing attempt leaves the manager unchanged (it
throws before clearing the flush list and before mapping any memory); a
successful attempt clears the flush list and marks the manager busy; the
flusher run at updater destruction submits the batched flush and marks the
manager no longer busy, so a subsequent `createUpdater` succeeds. -/
theorem descriptorUpdater_single_writer (dbm : DescriptorBufferManager) :
    ((createUpdater dbm).fst = CreateUpdaterResult.busyError ↔ dbm.UpdaterAlive = true)
    ∧ (createUpdater dbm).snd =
      (if dbm.UpdaterAlive then dbm else
        { DescriptorBufferAllocation := dbm.DescriptorBufferAllocation
          Offset := dbm.Offset
          UpdaterAlive := true
          Flush := ⟨[], [], []⟩ })
    ∧ (descriptorFlusher dbm).fst =
      ⟨dbm.Flush.Allocation.length, dbm.Flush.Allocation, dbm.Flush.Offset, dbm.Flush.Size⟩
    ∧ (descriptorFlusher dbm).snd.UpdaterAlive = false
    ∧ (createUpdater (descriptorFlusher dbm).snd).fst = CreateUpdaterResult.ok := by
  by_cases h : dbm.UpdaterAlive
  · simp [createUpdater, descriptorFlusher, clearFlush, h]
  · simp [createUpdater, descriptorFlusher, clearFlush, h]

/-- C4: appending a barrier to a batch whose corresponding collection
already holds its declared capacity is rejected by the eager capacity
check in `FixedArray::pushBack`; the rejection happens exactly at
capacity, so no write ever lands past the declared bound. -/
theorem pipelineBarrier_add_rejected_at_capacity
    {NMemBar NBufBar NImgBar : Nat} (pb : PipelineBarrier NMemBar NBufBar NImgBar)
    (barrier : BarrierInfo) (layout : ImageLayoutTransitionInfo)
    (queue_family : QueueFamilyTransitionInfo) (buffer offset size image : Nat)
    (sub_res_range : VkImageSubresourceRange) :
    (pb.addMemoryBarrier barrier = none ↔ pb.MemoryBarrier.size = NMemBar)
    ∧ (pb.addBufferBarrier barrier queue_family buffer offset size = none
      ↔ pb.BufferBarrier.size = NBufBar)
    ∧ (pb.addImageBarrier barrier layout queue_family image sub_res_range = none
      ↔ pb.ImageBarrier.size = NImgBar) := by
  refine ⟨?_, ?_, ?_⟩
  · rw [PipelineBarrier.addMemoryBarrier, Option.map_eq_none',
      FixedArray.pushBack_eq_none_iff]
  · rw [PipelineBarrier.addBufferBarrier, Option.map_eq_none',
      FixedArray.pushBack_eq_none_iff]
  · rw [PipelineBarrier.addImageBarrier, Option.map_eq_none',
      FixedArray.pushBack_eq_none_iff]

/-- C5: the call `record` emits exactly one dependency command carrying the given
dependency flags and exactly the accumulated memory, buffer and image
barrier entries in insertion order; being `const`, it leaves the batch
unchanged; after `clear`, a `record` emits one dependency command with
zero barriers of every kind. -/
theorem pipelineBarrier_record_emits_one_dependency
    {NMemBar NBufBar NImgBar : Nat} (pb : PipelineBarrier NMemBar NBufBar NImgBar)
    (dep_flag : Nat) :
    (pb.record dep_flag).fst =
      [GpuCommand.cmdPipelineBarrier2
        { dependencyFlags := dep_flag
          memoryBarriers := pb.MemoryBarrier.data
          bufferMemoryBarriers := pb.BufferBarrier.data
          imageMemoryBarriers := pb.ImageBarrier.data }]
    ∧ (pb.record dep_flag).snd = pb
    ∧ (pb.clear.record dep_flag).fst =
      [GpuCommand.cmdPipelineBarrier2
        { dependencyFlags := dep_flag
          memoryBarriers := []
          bufferMemoryBarriers := []
          imageMemoryBarriers := [] }] :=
  ⟨rfl, rfl, rfl⟩

/-- C6: moving an owned handle transfers ownership and empties the source:
destroying the moved-from handle performs no native free call, destroying
the moved-to handle calls the captured deleter exactly once on the original
native handle, destroying a default-constructed handle performs no free
call, and destroying both halves of a move performs exactly the free calls
of the original (ownership is never duplicated). -/
theorem uniqueHandle_move_transfers_ownership {H D : Type} (h : H) (d dd : D) :
    (UniqueHandle.ofHandle h d).moveConstruct.fst.handle = none
    ∧ UniqueHandle.destroy (UniqueHandle.ofHandle h d).moveConstruct.fst = []
    ∧ UniqueHandle.destroy (UniqueHandle.ofHandle h d).moveConstruct.snd = [⟨d, h⟩]
    ∧ UniqueHandle.destroy (UniqueHandle.emptyHandle (H := H) d) = []
    ∧ UniqueHandle.destroy (UniqueHandle.ofHandle h d).moveConstruct.fst
        ++ UniqueHandle.destroy (UniqueHandle.ofHandle h d).moveConstruct.snd
      = UniqueHandle.destroy (UniqueHandle.ofHandle h d)
    ∧ UniqueHandle.moveAssign (UniqueHandle.emptyHandle dd) (UniqueHandle.ofHandle h d)
      = ([], UniqueHandle.ofHandle h d, ⟨none, d⟩) :=
  ⟨rfl, rfl, rfl, rfl, rfl, rfl⟩

/-- C7: every submission issues exactly one `vkQueueSubmit2` call, as the
last API call, carrying all supplied command buffers, wait operations and
signal operations; a non-null fence is reset exactly once, immediately
before (never after) the queue submission, and a null fence is never
reset. -/
theorem submit_resets_fence_before_single_submission
    (cmd : List Nat) (wait_op signal_op : List SemaphoreOperation) (fence : Nat) :
    (submit cmd wait_op signal_op fence).countP SubmitEvent.isQueueSubmit2 = 1
    ∧ (submit cmd wait_op signal_op fence).countP SubmitEvent.isResetFences
      = (if fence = 0 then 0 else 1)
    ∧ (submit cmd wait_op signal_op fence).getLast? =
      some (SubmitEvent.queueSubmit2
        { waitSemaphoreInfos := fillSemaphoreSubmitInfo wait_op
          commandBufferInfos := fillCommandBufferSubmitInfo cmd
          signalSemaphoreInfos := fillSemaphoreSubmitInfo signal_op } fence)
    ∧ (submit cmd wait_op signal_op fence).dropLast =
      (if fence = 0 then [] else [SubmitEvent.resetFences fence])
    ∧ (fillCommandBufferSubmitInfo cmd).length = cmd.length
    ∧ (fillSemaphoreSubmitInfo wait_op).length = wait_op.length
    ∧ (fillSemaphoreSubmitInfo signal_op).length = signal_op.length := by
  by_cases h : fence = 0
  · simp [submit, h, SubmitEvent.isQueueSubmit2, SubmitEvent.isResetFences,
      fillCommandBufferSubmitInfo, fillSemaphoreSubmitInfo, List.countP_cons]
  · simp [submit, h, SubmitEvent.isQueueSubmit2, SubmitEvent.isResetFences,
      fillCommandBufferSubmitInfo, fillSemaphoreSubmitInfo, List.countP_cons]

/-- C8: compaction first reads the compacted size back with
`VK_QUERY_RESULT_WAIT_BIT` set (bit 1, so the readback blocks until the
query result is available), then creates the backing buffer and the new
acceleration structure with exactly the queried size, and only afterwards
records the compacting copy from the old structure to the new one; no step
writes to the old structure. -/
theorem compactAccelStruct_waits_and_sizes_exactly
    (query_pool query_idx queried_size : Nat) :
    (compactAccelStruct query_pool query_idx queried_size).head? =
      some (CompactionEvent.getQueryPoolResults query_pool query_idx
        VK_QUERY_RESULT_WAIT_BIT)
    ∧ VK_QUERY_RESULT_WAIT_BIT.testBit 1 = true
    ∧ (compactAccelStruct query_pool query_idx queried_size).drop 1 =
      [CompactionEvent.createDeviceBuffer CompactionHandle.compactedBuffer queried_size,
       CompactionEvent.createAccelerationStructureKHR CompactionHandle.compactedAccelStruct
         CompactionHandle.compactedBuffer queried_size,
       CompactionEvent.cmdCopyAccelerationStructureKHR CompactionHandle.sourceAccelStruct
         CompactionHandle.compactedAccelStruct true]
    ∧ (compactAccelStruct query_pool query_idx queried_size).all
      (fun e => !(e.modifies CompactionHandle.sourceAccelStruct)) = true := by
  refine ⟨rfl, by decide, rfl, ?_⟩
  simp [compactAccelStruct, CompactionEvent.modifies]

/-- C9: the error check returns normally exactly when the result code is
`VK_SUCCESS` (0); otherwise it raises a single error whose message contains
the textual name of the failing code (via `string_VkResult`) and the
call-site file, function and line. -/
theorem checkVulkanError_raises_with_code_and_location
    (string_VkResult : Int → String) (code : Int) (src : SourceLocation) :
    (checkVulkanError string_VkResult code src = Except.ok () ↔ code = 0)
    ∧ checkVulkanError string_VkResult code src =
      (if code = 0 then Except.ok ()
        else Except.error (throwErrorMessage (string_VkResult code) src))
    ∧ (string_VkResult code).data <:+: (throwErrorMessage (string_VkResult code) src).data
    ∧ src.fileName.data <:+: (throwErrorMessage (string_VkResult code) src).data
    ∧ src.functionName.data <:+: (throwErrorMessage (string_VkResult code) src).data
    ∧ (toString src.line).data <:+: (throwErrorMessage (string_VkResult code) src).data := by
  have hmsg : (throwErrorMessage (string_VkResult code) src).data
      = (string_VkResult code).data ++ ("\n".data ++ (src.fileName.data ++ (":".data
        ++ (src.functionName.data ++ (":(".data ++ ((toString src.line).data
        ++ (")".data ++ "\n".data))))))) := by
    simp [throwErrorMessage, String.data_append]
  refine ⟨?_, ?_, ?_, ?_, ?_, ?_⟩
  · by_cases h : code = 0 <;> simp [checkVulkanError, h]
  · by_cases h : code = 0 <;> simp [checkVulkanError, h]
  · refine ⟨[], "\n".data ++ (src.fileName.data ++ (":".data ++ (src.functionName.data
      ++ (":(".data ++ ((toString src.line).data ++ (")".data ++ "\n".data)))))), ?_⟩
    rw [hmsg]; simp
  · refine ⟨(string_VkResult code).data ++ "\n".data, ":".data ++ (src.functionName.data
      ++ (":(".data ++ ((toString src.line).data ++ (")".data ++ "\n".data)))), ?_⟩
    rw [hmsg]; simp
  · refine ⟨(string_VkResult code).data ++ ("\n".data ++ (src.fileName.data ++ ":".data)),
      ":(".data ++ ((toString src.line).data ++ (")".data ++ "\n".data)), ?_⟩
    rw [hmsg]; simp
  · refine ⟨(string_VkResult code).data ++ ("\n".data ++ (src.fileName.data ++ (":".data
      ++ (src.functionName.data ++ ":(".data)))), ")".data ++ "\n".data, ?_⟩
    rw [hmsg]; simp

/-- C10: the three parallel flush vectors stay the same length: they start
empty at construction, `update` appends exactly one element to each,
opening an updater session clears all three, and the batched flush at
updater destruction submits exactly the common number of ranges. -/
theorem flushList_parallel_vectors_balanced
    (dbm dbm' : DescriptorBufferManager) (info : UpdateInfo)
    (alloc alignment : Nat) (sizes : List Nat)
    (hupd : update dbm info = some dbm')
    (hbalA : dbm.Flush.Allocation.length = dbm.Flush.Offset.length)
    (hbalB : dbm.Flush.Offset.length = dbm.Flush.Size.length) :
    (mkDescriptorBufferManager alloc alignment sizes).Flush = ⟨[], [], []⟩
    ∧ dbm'.Flush.Allocation.length = dbm.Flush.Allocation.length + 1
    ∧ dbm'.Flush.Offset.length = dbm.Flush.Offset.length + 1
    ∧ dbm'.Flush.Size.length = dbm.Flush.Size.length + 1
    ∧ dbm'.Flush.Allocation.length = dbm'.Flush.Offset.length
    ∧ dbm'.Flush.Offset.length = dbm'.Flush.Size.length
    ∧ (createUpdater (descriptorFlusher dbm').snd).snd.Flush = ⟨[], [], []⟩
    ∧ (descriptorFlusher dbm').fst.UpdateCount = dbm'.Flush.Allocation.length
    ∧ (descriptorFlusher dbm').fst.UpdateCount = dbm'.Flush.Offset.length
    ∧ (descriptorFlusher dbm').fst.UpdateCount = dbm'.Flush.Size.length := by
  by_cases h : dbm.UpdaterAlive
  · rw [update, if_pos h] at hupd
    have hd := Option.some.inj hupd
    subst hd
    refine ⟨rfl, ?_⟩
    simp [createUpdater, descriptorFlusher, clearFlush, mkDescriptorBufferManager]
    omega
  · rw [update, if_neg h] at hupd
    exact absurd hupd (by simp)

/-- C10 witness: a concrete live manager with one recorded range; the update
appends one element to each of the three vectors. -/
theorem flushList_parallel_vectors_balanced_witness :
    update
      { DescriptorBufferAllocation := 9, Offset := [0, 64], UpdaterAlive := true,
        Flush := ⟨[9], [16], [32]⟩ }
      { SetIndex := 1, Binding := 0, ArrayLayer := 2, BindingOffset := 8,
        DescriptorSize := 16 }
      = some
      { DescriptorBufferAllocation := 9, Offset := [0, 64], UpdaterAlive := true,
        Flush := ⟨[9, 9], [16, 104], [32, 16]⟩ }
    ∧ ((mkDescriptorBufferManager 1 4 [8]).Flush = ⟨[], [], []⟩
      ∧ (⟨[9, 9], [16, 104], [32, 16]⟩ : FlushData).Allocation.length
        = (⟨[9], [16], [32]⟩ : FlushData).Allocation.length + 1
      ∧ (⟨[9, 9], [16, 104], [32, 16]⟩ : FlushData).Offset.length
        = (⟨[9], [16], [32]⟩ : FlushData).Offset.length + 1
      ∧ (⟨[9, 9], [16, 104], [32, 16]⟩ : FlushData).Size.length
        = (⟨[9], [16], [32]⟩ : FlushData).Size.length + 1) := by
  have hu : update
      { DescriptorBufferAllocation := 9, Offset := [0, 64], UpdaterAlive := true,
        Flush := ⟨[9], [16], [32]⟩ }
      { SetIndex := 1, Binding := 0, ArrayLayer := 2, BindingOffset := 8,
        DescriptorSize := 16 }
      = some
      { DescriptorBufferAllocation := 9, Offset := [0, 64], UpdaterAlive := true,
        Flush := ⟨[9, 9], [16, 104], [32, 16]⟩ } := by decide
  have hall := flushList_parallel_vectors_balanced _ _ _ 1 4 [8] hu rfl rfl
  exact ⟨hu, hall.1, hall.2.1, hall.2.2.1, hall.2.2.2.1⟩

/-- Masking an `n`-bit value with `2 ^ n - 2 ^ k` clears its low `k` bits:
the bit identity behind the `roundUp` optimisation. -/
theorem land_pow_sub_pow (n k x : Nat) (hk : k ≤ n) (hx : x < 2 ^ n) :
    Nat.land x (2 ^ n - 2 ^ k) = x / 2 ^ k * 2 ^ k := by
  have hpow : 2 ^ k * 2 ^ (n - k) = 2 ^ n := by
    rw [← pow_add]
    congr 1
    omega
  have hmask : 2 ^ n - 2 ^ k = 2 ^ k * (2 ^ (n - k) - 1) := by
    have h1 : 2 ^ (n - k) - 1 = Nat.pred (2 ^ (n - k)) := rfl
    rw [h1, Nat.mul_pred, hpow]
  apply Nat.eq_of_testBit_eq
  intro i
  show (x &&& (2 ^ n - 2 ^ k)).testBit i = (x / 2 ^ k * 2 ^ k).testBit i
  rw [Nat.testBit_land, hmask, Nat.testBit_mul_pow_two, Nat.testBit_two_pow_sub_one,
    mul_comm (x / 2 ^ k) (2 ^ k), Nat.testBit_mul_pow_two, ← Nat.shiftRight_eq_div_pow,
    Nat.testBit_shiftRight]
  by_cases hik : k ≤ i
  · have hi : k + (i - k) = i := by omega
    rw [hi]
    simp only [ge_iff_le, hik, decide_True, Bool.true_and]
    by_cases hin : i < n
    · have hlt : i - k < n - k := by omega
      simp [hlt]
    · have hxi : x.testBit i = false :=
        Nat.testBit_lt_two_pow
          (lt_of_lt_of_le hx (Nat.pow_le_pow_right (by norm_num) (by omega)))
      have hge : ¬ (i - k < n - k) := by omega
      simp [hxi, hge]
  · simp only [ge_iff_le, hik, decide_False, Bool.false_and, Bool.and_false]

/-- Under the power-of-two assertion and with no 64-bit overflow, the bit
trick computes the usual round-up-to-multiple. -/
theorem roundUp_eq_div_mul (num k : Nat) (hk : k ≤ 64) (hov : num + 2 ^ k ≤ 2 ^ 64) :
    roundUp num (2 ^ k) = (num + 2 ^ k - 1) / 2 ^ k * 2 ^ k := by
  have hpos : 0 < 2 ^ k := pow_pos (by norm_num) k
  have hlt : num + 2 ^ k - 1 < 2 ^ 64 := by omega
  unfold roundUp
  rw [Nat.mod_eq_of_lt hlt]
  exact land_pow_sub_pow 64 k _ hk hlt

theorem ceil_div_mul_bounds (a b : Nat) (hb : 0 < b) :
    a ≤ (a + b - 1) / b * b ∧ (a + b - 1) / b * b < a + b := by
  have hdm := Nat.div_add_mod (a + b - 1) b
  have hmlt := Nat.mod_lt (a + b - 1) hb
  obtain ⟨t, ht⟩ : ∃ t, t = b * ((a + b - 1) / b) := ⟨_, rfl⟩
  rw [mul_comm ((a + b - 1) / b) b, ← ht]
  rw [← ht] at hdm
  omega

/-- Rounding: `roundUp num mul` with a power-of-two `mul` yields a multiple of `mul`,
at least `num` and less than `num + mul`. -/
theorem roundUp_bounds (num k : Nat) (hk : k ≤ 64) (hov : num + 2 ^ k ≤ 2 ^ 64) :
    num ≤ roundUp num (2 ^ k) ∧ roundUp num (2 ^ k) < num + 2 ^ k
      ∧ 2 ^ k ∣ roundUp num (2 ^ k) := by
  rw [roundUp_eq_div_mul num k hk hov]
  have hb := ceil_div_mul_bounds num (2 ^ k) (pow_pos (by norm_num) k)
  exact ⟨hb.1, hb.2, dvd_mul_left _ _⟩

theorem roundSizes_shape (al : Nat) (l : List Nat) :
    roundSizes al l
      = l.dropLast.map (fun s => roundUp s al) ++ l.drop (l.length - 1) := by
  induction l with
  | nil => rfl
  | cons x xs ih =>
    cases xs with
    | nil => rfl
    | cons y ys =>
      rw [show roundSizes al (x :: y :: ys)
        = roundUp x al :: roundSizes al (y :: ys) from rfl, ih]
      simp

theorem roundSizes_length (al : Nat) (l : List Nat) :
    (roundSizes al l).length = l.length := by
  induction l with
  | nil => rfl
  | cons x xs ih =>
    cases xs with
    | nil => rfl
    | cons y ys => simp only [roundSizes, List.length_cons] at ih ⊢; omega

theorem exclusiveScan_length (a : Nat) (l : List Nat) :
    (exclusiveScan a l).length = l.length := by
  induction l generalizing a with
  | nil => rfl
  | cons x xs ih => simp [exclusiveScan, ih]

theorem foldl_mod_add_eq_sum (l : List Nat) (a : Nat) (h : a + l.sum < 2 ^ 64) :
    l.foldl (fun p q => (p + q) % 2 ^ 64) a = a + l.sum := by
  induction l generalizing a with
  | nil => simp
  | cons x xs ih =>
    have hs : a + (x + xs.sum) < 2 ^ 64 := by simpa using h
    have hax : (a + x) % 2 ^ 64 = a + x := Nat.mod_eq_of_lt (by omega)
    simp only [List.foldl_cons, hax, List.sum_cons]
    rw [ih (a + x) (by omega)]
    omega

/-- Dropping the head of an exclusive scan gives, entrywise, the previous
offset plus the previous size: `off[i+1] = off[i] + size[i]`. -/
theorem exclusiveScan_drop_one (a : Nat) (l : List Nat) (h : a + l.sum < 2 ^ 64) :
    (exclusiveScan a l).drop 1
      = (List.zipWith (fun p q => p + q) (exclusiveScan a l) l).dropLast := by
  induction l generalizing a with
  | nil => rfl
  | cons x xs ih =>
    have hs : a + (x + xs.sum) < 2 ^ 64 := by simpa using h
    have hax : (a + x) % 2 ^ 64 = a + x := Nat.mod_eq_of_lt (by omega)
    rw [show exclusiveScan a (x :: xs)
      = a :: exclusiveScan ((a + x) % 2 ^ 64) xs from rfl, hax]
    cases xs with
    | nil => rfl
    | cons y ys =>
      have hih := ih (a + x) (by simp only [List.sum_cons] at hs ⊢; omega)
      have hnn : List.zipWith (fun p q => p + q)
          (exclusiveScan (a + x) (y :: ys)) (y :: ys) ≠ [] := by
        rw [show exclusiveScan (a + x) (y :: ys)
          = (a + x) :: exclusiveScan ((a + x + y) % 2 ^ 64) ys from rfl]
        simp
      simp only [List.drop_succ_cons, List.drop_zero, List.zipWith_cons_cons]
      rw [List.dropLast_cons_of_ne_nil hnn, ← hih]
      rfl

/-- An exclusive scan over positive steps (all but possibly the final one,
which never feeds an emitted offset) is strictly increasing. -/
theorem exclusiveScan_chain_lt (a : Nat) (l : List Nat) (h : a + l.sum < 2 ^ 64)
    (hpos : ∀ x ∈ l.dropLast, 0 < x) :
    List.Chain' (fun p q => p < q) (exclusiveScan a l) := by
  induction l generalizing a with
  | nil => simp [exclusiveScan]
  | cons x xs ih =>
    have hs : a + (x + xs.sum) < 2 ^ 64 := by simpa using h
    have hax : (a + x) % 2 ^ 64 = a + x := Nat.mod_eq_of_lt (by omega)
    rw [show exclusiveScan a (x :: xs)
      = a :: exclusiveScan ((a + x) % 2 ^ 64) xs from rfl, hax]
    cases xs with
    | nil => simp [exclusiveScan]
    | cons y ys =>
      rw [show exclusiveScan (a + x) (y :: ys)
        = (a + x) :: exclusiveScan ((a + x + y) % 2 ^ 64) ys from rfl, List.chain'_cons]
      constructor
      · have hx : 0 < x := hpos x (by simp)
        omega
      · rw [← show exclusiveScan (a + x) (y :: ys)
          = (a + x) :: exclusiveScan ((a + x + y) % 2 ^ 64) ys from rfl]
        apply ih (a + x) (by simp only [List.sum_cons] at hs ⊢; omega)
        intro z hz
        apply hpos
        rw [show (x :: y :: ys).dropLast = x :: (y :: ys).dropLast from rfl]
        exact List.mem_cons_of_mem _ hz

theorem drop_length_sub_one (l : List Nat) (hne : l ≠ []) :
    l.drop (l.length - 1) = [l.getLast hne] := by
  conv_lhs => rw [← List.dropLast_concat_getLast hne]
  rw [show (l.dropLast ++ [l.getLast hne]).length - 1 = l.dropLast.length by simp]
  exact List.drop_left _ _

/-- C3 counterexample: the claim asserts strictly increasing offsets for
every non-empty size list, but a zero layout size (an empty descriptor-set
layout) rounds up to zero, so two consecutive offsets coincide: with sizes
[0, 5] and power-of-two alignment 4 the offsets are [0, 0]. -/
theorem descriptorSetOffsets_zero_size_not_strictly_increasing :
    descriptorSetOffsets 4 [0, 5] = [0, 0]
    ∧ ¬ List.Pairwise (fun p q => p < q) (descriptorSetOffsets 4 [0, 5]) := by
  constructor
  · decide
  · decide

/-- C3 (amended): rounding every layout size except the last up to the
power-of-two device alignment, the total buffer size equals the sum of the
rounded sizes, the offsets are the exclusive prefix sum of the rounded
sizes — the first offset is 0 and each offset equals (hence is at least)
its predecessor plus the predecessor's rounded size — and, provided every
size except the last is positive, the offsets are strictly increasing.
The 64-bit no-overflow side conditions are explicit hypotheses. -/
theorem descriptorBuffer_offset_packing (k : Nat) (sizes : List Nat)
    (hne : sizes ≠ []) (hk : k ≤ 64)
    (hov : ∀ s ∈ sizes, s + 2 ^ k ≤ 2 ^ 64)
    (hsum : (roundSizes (2 ^ k) sizes).sum < 2 ^ 64)
    (hpos : ∀ s ∈ sizes.dropLast, 0 < s) :
    roundSizes (2 ^ k) sizes
      = sizes.dropLast.map (fun s => roundUp s (2 ^ k)) ++ [sizes.getLast hne]
    ∧ List.Forall₂ (fun s t => s ≤ t ∧ t < s + 2 ^ k ∧ 2 ^ k ∣ t)
      sizes.dropLast (roundSizes (2 ^ k) sizes).dropLast
    ∧ totalSize (2 ^ k) sizes = (roundSizes (2 ^ k) sizes).sum
    ∧ (descriptorSetOffsets (2 ^ k) sizes).length = sizes.length
    ∧ (descriptorSetOffsets (2 ^ k) sizes).getD 0 0 = 0
    ∧ (descriptorSetOffsets (2 ^ k) sizes).drop 1
      = (List.zipWith (fun p q => p + q) (descriptorSetOffsets (2 ^ k) sizes)
        (roundSizes (2 ^ k) sizes)).dropLast
    ∧ List.Pairwise (fun p q => p < q) (descriptorSetOffsets (2 ^ k) sizes) := by
  have heq : roundSizes (2 ^ k) sizes
      = sizes.dropLast.map (fun s => roundUp s (2 ^ k)) ++ [sizes.getLast hne] := by
    rw [roundSizes_shape, drop_length_sub_one sizes hne]
  have hdrop : (roundSizes (2 ^ k) sizes).dropLast
      = sizes.dropLast.map (fun s => roundUp s (2 ^ k)) := by
    rw [heq]
    simp
  have hb0 : (0 : Nat) + (roundSizes (2 ^ k) sizes).sum < 2 ^ 64 := by simpa using hsum
  have hposr : ∀ z ∈ (roundSizes (2 ^ k) sizes).dropLast, 0 < z := by
    intro z hz
    rw [hdrop] at hz
    obtain ⟨s, hs, hfz⟩ := List.mem_map.mp hz
    have hsz := hpos s hs
    have hb := roundUp_bounds s k hk (hov s (List.dropLast_subset sizes hs))
    omega
  refine ⟨heq, ?_, ?_, ?_, ?_, ?_, ?_⟩
  · rw [hdrop, List.forall₂_map_right_iff, List.forall₂_same]
    intro s hs
    exact roundUp_bounds s k hk (hov s (List.dropLast_subset sizes hs))
  · exact (foldl_mod_add_eq_sum _ 0 hb0).trans (Nat.zero_add _)
  · unfold descriptorSetOffsets
    rw [exclusiveScan_length, roundSizes_length]
  · have hlen : 0 < (roundSizes (2 ^ k) sizes).length := by
      rw [roundSizes_length]
      exact List.length_pos.mpr hne
    obtain ⟨y, ys, hys⟩ := List.exists_cons_of_ne_nil (List.ne_nil_of_length_pos hlen)
    unfold descriptorSetOffsets
    rw [hys]
    rfl
  · unfold descriptorSetOffsets
    exact exclusiveScan_drop_one 0 _ hb0
  · unfold descriptorSetOffsets
    rw [← List.chain'_iff_pairwise]
    exact exclusiveScan_chain_lt 0 _ hb0 hposr

/-- C3 witness: alignment 4 with sizes [6, 10, 3] gives rounded sizes
[8, 12, 3], total size 23 and strictly increasing offsets [0, 8, 20]. -/
theorem descriptorBuffer_offset_packing_witness :
    (([6, 10, 3] : List Nat) ≠ [] ∧ 2 ≤ 64
      ∧ (∀ s ∈ ([6, 10, 3] : List Nat), s + 2 ^ 2 ≤ 2 ^ 64)
      ∧ (roundSizes (2 ^ 2) [6, 10, 3]).sum < 2 ^ 64
      ∧ (∀ s ∈ ([6, 10, 3] : List Nat).dropLast, 0 < s))
    ∧ (roundSizes (2 ^ 2) [6, 10, 3]
        = ([6, 10, 3] : List Nat).dropLast.map (fun s => roundUp s (2 ^ 2))
          ++ [([6, 10, 3] : List Nat).getLast (by decide)]
      ∧ List.Forall₂ (fun s t => s ≤ t ∧ t < s + 2 ^ 2 ∧ 2 ^ 2 ∣ t)
        ([6, 10, 3] : List Nat).dropLast (roundSizes (2 ^ 2) [6, 10, 3]).dropLast
      ∧ totalSize (2 ^ 2) [6, 10, 3] = (roundSizes (2 ^ 2) [6, 10, 3]).sum
      ∧ (descriptorSetOffsets (2 ^ 2) [6, 10, 3]).length = ([6, 10, 3] : List Nat).length
      ∧ (descriptorSetOffsets (2 ^ 2) [6, 10, 3]).getD 0 0 = 0
      ∧ (descriptorSetOffsets (2 ^ 2) [6, 10, 3]).drop 1
        = (List.zipWith (fun p q => p + q) (descriptorSetOffsets (2 ^ 2) [6, 10, 3])
          (roundSizes (2 ^ 2) [6, 10, 3])).dropLast
      ∧ List.Pairwise (fun p q => p < q) (descriptorSetOffsets (2 ^ 2) [6, 10, 3])) :=
  ⟨⟨by decide, by decide, by decide, by decide, by decide⟩,
    descriptorBuffer_offset_packing 2 [6, 10, 3] (by decide) (by decide) (by decide)
      (by decide) (by decide)⟩

end LearnVulkan
